import Mathlib

/-
  Verification development for the `NetCfgDevice` D-Bus object of
  openvpn3-linux (src/netcfg/netcfg-device.hpp).

  The embedding models the device object state, the shared DNS resolver
  collaborator (`DNS::ResolverSettings`, reached through a raw pointer in the
  source), and the two callback entry points `callback_method_call` and
  `callback_get_property`.  Side effects on collaborators (resolver calls,
  fd handling, logging, object unregistration, self-deletion) are recorded as
  an ordered event list in the call outcome; D-Bus replies issued through the
  invocation object are recorded in order as well.
-/

/--
Modelled from the spec: the shared Resolver Handle (`DNS::ResolverSettings`
from src/netcfg/dns-direct-file.hpp, which is not part of the sources under
verification).  Per the spec it is a shared, reference-counted object holding
DNS servers and search domains, a modified flag, and a device reference
count.
-/
structure ResolverState where
  deviceCount : Nat
  modified : Bool
  servers : List String
  searchDomains : List String
deriving Repr, DecidableEq

/-- Modelled from the spec: `ResolverSettings::IncDeviceCount` increments the
device reference count of the shared Resolver Handle. -/
def ResolverState.IncDeviceCount (r : ResolverState) : ResolverState :=
  { r with deviceCount := r.deviceCount + 1 }

/-- Modelled from the spec: `ResolverSettings::DecDeviceCount` decrements the
device reference count of the shared Resolver Handle (the count never goes
below zero). -/
def ResolverState.DecDeviceCount (r : ResolverState) : ResolverState :=
  { r with deviceCount := r.deviceCount - 1 }

/-- Modelled from the spec: `ResolverSettings::GetDeviceCount` reads the
device reference count. -/
def ResolverState.GetDeviceCount (r : ResolverState) : Nat :=
  r.deviceCount

/-- Modelled from the spec: `ResolverSettings::GetModified` reports whether
the resolver has unapplied changes. -/
def ResolverState.GetModified (r : ResolverState) : Bool :=
  r.modified

/-- Modelled from the spec: `ResolverSettings::AddDNSServers` adds the given
servers to the resolver configuration, marking it modified. -/
def ResolverState.AddDNSServers (r : ResolverState) (l : List String) : ResolverState :=
  { r with servers := r.servers ++ l, modified := true }

/-- Modelled from the spec: `ResolverSettings::RemoveDNSServers` removes the
given servers from the resolver configuration, marking it modified. -/
def ResolverState.RemoveDNSServers (r : ResolverState) (l : List String) : ResolverState :=
  { r with servers := r.servers.filter (fun s => ¬ s ∈ l), modified := true }

/-- Modelled from the spec: `ResolverSettings::AddDNSSearch` adds the given
search domains, marking the resolver modified. -/
def ResolverState.AddDNSSearch (r : ResolverState) (l : List String) : ResolverState :=
  { r with searchDomains := r.searchDomains ++ l, modified := true }

/-- Modelled from the spec: `ResolverSettings::RemoveDNSSearch` removes the
given search domains, marking the resolver modified. -/
def ResolverState.RemoveDNSSearch (r : ResolverState) (l : List String) : ResolverState :=
  { r with searchDomains := r.searchDomains.filter (fun s => ¬ s ∈ l), modified := true }

/-- Modelled from the spec: `ResolverSettings::GetDNSServers` reads the
configured DNS server list. -/
def ResolverState.GetDNSServers (r : ResolverState) : List String :=
  r.servers

/-- Modelled from the spec: a successful `ResolverSettings::Apply` applies
the queued DNS changes to the system, after which the resolver no longer
reports modified state.  Whether `Apply` / `Restore` fail is an environment
choice (they touch system files); see `Env`. -/
def ResolverState.ApplyOk (r : ResolverState) : ResolverState :=
  { r with modified := false }

/--
The members of `NetCfgDevice` relevant to its behaviour
(src/netcfg/netcfg-device.hpp lines 548-561): the device name, the local
`dns_servers` / `dns_search` vectors (bound as properties, never populated),
the MTU, the `active` flag, the creator uid recorded by `DBusCredentials`,
and whether a resolver was configured (`resolver != nullptr`).  The shared
resolver state itself is passed separately, since several devices may share
one `ResolverSettings` object.
-/
structure DeviceState where
  device_name : String
  dns_servers : List String
  dns_search : List String
  mtu : Nat
  active : Bool
  owner : Nat
  hasResolver : Bool
deriving Repr, DecidableEq

/--
Environment choices made by external collaborators during one call:
whether `ResolverSettings::Apply` fails (throws `NetCfgException`), whether
`ResolverSettings::Restore` fails (throws `NetCfgException`), and whether
`g_unix_fd_list_append` reports an error.
-/
structure Env where
  applyFails : Bool
  restoreFails : Bool
  fdlistError : Bool
deriving Repr, DecidableEq

/-- Observable side effects of one callback invocation, in program order. -/
inductive CEvent where
  | incDeviceCount
  | decDeviceCount
  | applyCall
  | restoreCall
  | addServers (l : List String)
  | removeServers (l : List String)
  | addSearch (l : List String)
  | removeSearch (l : List String)
  | appendFd (fd : Int)
  | closeFd (fd : Int)
  | handoffFd (fd : Int)
  | logCritical (msg : String)
  | logVerb (msg : String)
  | removeObject
  | deleteSelf
deriving Repr, DecidableEq

/-- Replies issued on the `GDBusMethodInvocation`, in order:
`g_dbus_method_invocation_return_value` with a null variant (empty success),
`g_dbus_method_invocation_return_value_with_unix_fd_list`, or an error reply
(from `SetDBusError` or `g_dbus_method_invocation_return_gerror`). -/
inductive Reply where
  | value
  | valueWithFdList (fd : Int)
  | dbusErr (name : String) (msg : String)
deriving Repr, DecidableEq

/-- Result of one `callback_method_call` invocation: the device afterwards
(`none` when `delete this` ran), the resolver afterwards, the side-effect
events in order, and the replies issued in order. -/
structure Outcome where
  device : Option DeviceState
  resolver : ResolverState
  events : List CEvent
  replies : List Reply
deriving Repr, DecidableEq

/-- Modelled from the spec: `DBusCredentials::CheckOwnerAccess` (from
src/dbus/connection-creds.hpp, not part of the sources under verification)
lets only the recorded owner identity proceed; any other identity makes it
throw a `DBusCredentialsException`. -/
def CheckOwnerAccess (sender owner : Nat) : Bool :=
  sender = owner

/-- The generic error reply produced by the `catch (const std::exception&)`
handler of `callback_method_call` (netcfg-device.hpp lines 351-358). -/
def genericErr (method msg : String) : Reply :=
  Reply.dbusErr "net.openvpn.v3.netcfg.error.generic"
    ("Failed executing D-Bus call " ++ method ++ ": " ++ msg)

/-- Outcome of a method branch that performs no work: `retval` stays null and
line 343 replies with an empty success. -/
def unchangedOk (dev : DeviceState) (res : ResolverState) : Outcome :=
  { device := some dev, resolver := res, events := [], replies := [Reply.value] }

/-- Body of the `AddDNS` branch (lines 221-230): throws
`NetCfgException("No resolver configured")` when no resolver is configured,
otherwise delegates to `ResolverSettings::AddDNSServers`. -/
def addDNSImpl (params : List String) (dev : DeviceState) (res : ResolverState) : Outcome :=
  if dev.hasResolver then
    { device := some dev, resolver := res.AddDNSServers params,
      events := [CEvent.addServers params], replies := [Reply.value] }
  else
    { device := some dev, resolver := res, events := [],
      replies := [genericErr "AddDNS" "No resolver configured"] }

/-- Body of the `RemoveDNS` branch (lines 231-240). -/
def removeDNSImpl (params : List String) (dev : DeviceState) (res : ResolverState) : Outcome :=
  if dev.hasResolver then
    { device := some dev, resolver := res.RemoveDNSServers params,
      events := [CEvent.removeServers params], replies := [Reply.value] }
  else
    { device := some dev, resolver := res, events := [],
      replies := [genericErr "RemoveDNS" "No resolver configured"] }

/-- Body of the `AddDNSSearch` branch (lines 241-250). -/
def addDNSSearchImpl (params : List String) (dev : DeviceState) (res : ResolverState) : Outcome :=
  if dev.hasResolver then
    { device := some dev, resolver := res.AddDNSSearch params,
      events := [CEvent.addSearch params], replies := [Reply.value] }
  else
    { device := some dev, resolver := res, events := [],
      replies := [genericErr "AddDNSSearch" "No resolver configured"] }

/-- Body of the `RemoveDNSSearch` branch (lines 251-260). -/
def removeDNSSearchImpl (params : List String) (dev : DeviceState) (res : ResolverState) : Outcome :=
  if dev.hasResolver then
    { device := some dev, resolver := res.RemoveDNSSearch params,
      events := [CEvent.removeSearch params], replies := [Reply.value] }
  else
    { device := some dev, resolver := res, events := [],
      replies := [genericErr "RemoveDNSSearch" "No resolver configured"] }

/-- Second half of the `Establish` branch (lines 273-289): the placeholder
descriptor `fd = -1` (source comment: TODO, return the real fd of the tun
device here) is appended to a fresh fd list, the local copy is closed, an
append error raises `NetCfgException("Creating fd list failed")`, otherwise
the fd list is handed off with the reply.  The branch does not return, so
control falls through to line 343, which issues a second, empty reply. -/
def establishRest (env : Env) (dev : DeviceState) (res : ResolverState)
    (evs : List CEvent) : Outcome :=
  let fd : Int := -1
  let evs2 := evs ++ [CEvent.appendFd fd, CEvent.closeFd fd]
  if env.fdlistError then
    { device := some dev, resolver := res, events := evs2,
      replies := [genericErr "Establish" "Creating fd list failed"] }
  else
    { device := some dev, resolver := res,
      events := evs2 ++ [CEvent.handoffFd fd],
      replies := [Reply.valueWithFdList fd, Reply.value] }

/-- Body of the `Establish` branch (lines 261-290): when a resolver is
configured and reports modified state, `Apply` runs first; a failing `Apply`
throws and the call ends with the generic error reply before any fd
handling.  Otherwise the descriptor handoff of `establishRest` follows. -/
def establishImpl (env : Env) (dev : DeviceState) (res : ResolverState) : Outcome :=
  if dev.hasResolver = true ∧ res.GetModified = true then
    if env.applyFails then
      { device := some dev, resolver := res,
        events := [CEvent.applyCall],
        replies := [genericErr "Establish" "Resolver Apply failed"] }
    else
      establishRest env dev res.ApplyOk [CEvent.applyCall]
  else
    establishRest env dev res []

/-- Body of the `Disable` branch (lines 291-310): `Restore` runs only when a
resolver is configured and `GetDeviceCount() <= 1`; a `NetCfgException` from
`Restore` is caught locally and logged as critical.  The count is not
touched and the branch falls through to the empty success reply. -/
def disableImpl (env : Env) (dev : DeviceState) (res : ResolverState) : Outcome :=
  if dev.hasResolver = true ∧ res.GetDeviceCount ≤ 1 then
    if env.restoreFails then
      { device := some dev, resolver := res,
        events := [CEvent.restoreCall, CEvent.logCritical "Restore failed"],
        replies := [Reply.value] }
    else
      { device := some dev, resolver := res,
        events := [CEvent.restoreCall], replies := [Reply.value] }
  else
    { device := some dev, resolver := res, events := [], replies := [Reply.value] }

/-- Body of the `Destroy` branch (lines 311-341): `CheckOwnerAccess` throws
for non-owners (caught by the `DBusCredentialsException` handler, which logs
and sets the D-Bus error).  For the owner: with a resolver configured the
count is decremented first, then `Restore` runs exactly when the resulting
count is zero, its `NetCfgException` caught locally and logged; afterwards
the removal is logged, the object is unregistered (`RemoveObject`), the call
is acknowledged with an empty reply, and the object deletes itself. -/
def destroyImpl (env : Env) (sender : Nat) (dev : DeviceState) (res : ResolverState) : Outcome :=
  if CheckOwnerAccess sender dev.owner then
    let step :=
      if dev.hasResolver then
        let r2 := res.DecDeviceCount
        if r2.GetDeviceCount = 0 then
          if env.restoreFails then
            (r2, [CEvent.decDeviceCount, CEvent.restoreCall,
                  CEvent.logCritical "Restore failed"])
          else
            (r2, [CEvent.decDeviceCount, CEvent.restoreCall])
        else
          (r2, [CEvent.decDeviceCount])
      else
        (res, [])
    { device := none, resolver := step.1,
      events := step.2 ++
        [CEvent.logVerb ("Device " ++ dev.device_name ++ " was removed"),
         CEvent.removeObject, CEvent.deleteSelf],
      replies := [Reply.value] }
  else
    { device := some dev, resolver := res,
      events := [CEvent.logCritical "CheckOwnerAccess denied"],
      replies := [Reply.dbusErr "net.openvpn.v3.error.acl.denied"
        "Destroy not allowed"] }

/--
The `NetCfgDevice` constructor (lines 57-149): records the creator uid and
device name, initialises `mtu = 1500`, empty local `dns_servers` /
`dns_search` vectors and `active = false`, and increments the resolver's
device reference count exactly when a resolver was configured.
-/
def NetCfgDevice_construct (creator : Nat) (devname : String) (hasResolver : Bool)
    (res : ResolverState) : DeviceState × ResolverState × List CEvent :=
  let dev : DeviceState :=
    { device_name := devname, dns_servers := [], dns_search := [],
      mtu := 1500, active := false, owner := creator, hasResolver := hasResolver }
  if hasResolver then
    (dev, res.IncDeviceCount, [CEvent.incDeviceCount])
  else
    (dev, res, [])

/--
`NetCfgDevice::callback_method_call` (lines 172-366).  The source spreads the
method-name comparisons over four separate `if` / `else if` chains (a new
`if` opens at `RemoveIPv6Address`, `AddDNS` and `RemoveDNSSearch`); since
every guard tests equality of the same `method_name` against pairwise
distinct literals and the branches of the first two chains are empty, the
four chains behave as one dispatch over the method name, with any unmatched
name falling through to the empty success reply of line 343.
`validate_sender` returns immediately in the source (the check is disabled),
so it is a no-op here.  The address and route branches (lines 188-220) have
comment-only bodies.
-/
def netcfg_callback_method_call (env : Env) (sender : Nat) (method_name : String)
    (params : List String) (dev : DeviceState) (res : ResolverState) : Outcome :=
  if method_name = "AddIPv4Address" then unchangedOk dev res
  else if method_name = "RemoveIPv4Address" then unchangedOk dev res
  else if method_name = "AddIPv6Address" then unchangedOk dev res
  else if method_name = "RemoveIPv6Address" then unchangedOk dev res
  else if method_name = "AddRoutes" then unchangedOk dev res
  else if method_name = "RemoveRoutes" then unchangedOk dev res
  else if method_name = "AddDNS" then addDNSImpl params dev res
  else if method_name = "RemoveDNS" then removeDNSImpl params dev res
  else if method_name = "AddDNSSearch" then addDNSSearchImpl params dev res
  else if method_name = "RemoveDNSSearch" then removeDNSSearchImpl params dev res
  else if method_name = "Establish" then establishImpl env dev res
  else if method_name = "Disable" then disableImpl env dev res
  else if method_name = "Destroy" then destroyImpl env sender dev res
  else unchangedOk dev res

/-- Values a property read can produce: uint32, boolean, string, string
array, uint32 array. -/
inductive PropValue where
  | u (n : Nat)
  | b (v : Bool)
  | s (v : String)
  | ss (v : List String)
  | us (v : List Nat)
deriving Repr, DecidableEq

/-- `PropertyCollection::Exists` over the bindings registered by the
constructor (lines 75-78): `device_name`, `dns_servers`, `dns_search`,
`mtu`. -/
def properties_Exists (name : String) : Bool :=
  name = "device_name" ∨ name = "dns_servers" ∨ name = "dns_search" ∨ name = "mtu"

/-- `PropertyCollection::GetValue` reads the bound member of the device
object; the `dns_servers` and `dns_search` bindings expose the local,
never-populated vectors. -/
def properties_GetValue (dev : DeviceState) (name : String) : PropValue :=
  if name = "device_name" then PropValue.s dev.device_name
  else if name = "dns_servers" then PropValue.ss dev.dns_servers
  else if name = "dns_search" then PropValue.ss dev.dns_search
  else PropValue.u dev.mtu

/--
`NetCfgDevice::callback_get_property` (lines 385-482).  `owner` and `acl`
read through `DBusCredentials` (modelled from the spec: the owner uid and
the access list holding the permitted uids, here the owner).  `modified`
folds the resolver's modified flag over an initial `false`.  The address and
route list properties return lists that the source never populates.
`dns_servers` has an explicit branch returning the resolver servers, or an
empty list when no resolver is configured; `dns_search` has no such branch
and is served by the property binding of the local member.  An unknown name
raises `DBusPropertyException("Invalid property")`.
-/
def netcfg_callback_get_property (dev : DeviceState) (res : ResolverState)
    (logLevel : Nat) (property_name : String) : Except String PropValue :=
  if property_name = "log_level" then Except.ok (PropValue.u logLevel)
  else if property_name = "owner" then Except.ok (PropValue.u dev.owner)
  else if property_name = "acl" then Except.ok (PropValue.us [dev.owner])
  else if property_name = "active" then Except.ok (PropValue.b dev.active)
  else if property_name = "modified" then
    Except.ok (PropValue.b (dev.hasResolver && res.GetModified))
  else if property_name = "ipv4_addresses" then Except.ok (PropValue.ss [])
  else if property_name = "ipv4_routes" then Except.ok (PropValue.ss [])
  else if property_name = "ipv6_addresses" then Except.ok (PropValue.ss [])
  else if property_name = "ipv6_routes" then Except.ok (PropValue.ss [])
  else if property_name = "dns_servers" then
    if dev.hasResolver then Except.ok (PropValue.ss res.GetDNSServers)
    else Except.ok (PropValue.ss [])
  else if properties_Exists property_name then
    Except.ok (properties_GetValue dev property_name)
  else Except.error "Invalid property"

/-
  Trace model for the resolver reference-count invariant: a shared resolver
  is observed across a sequence of device constructions and completed
  `Destroy` calls.  Each destroyed device runs the real `Destroy` branch of
  `callback_method_call` as its own owner.
-/

/-- One lifecycle event on a shared resolver: construction of a device
(with or without that resolver configured), or a completed owner `Destroy`
of a live device. -/
inductive TraceEv where
  | construct (withResolver : Bool)
  | destroyDev (withResolver : Bool) (env : Env)
deriving Repr, DecidableEq

/-- The canonical device used in the trace model: creator uid 0, name tun0,
as produced by the `NetCfgDevice` constructor. -/
def traceDevice (withResolver : Bool) (res : ResolverState) : DeviceState :=
  (NetCfgDevice_construct 0 "tun0" withResolver res).1

/-- Effect of one trace event on the shared resolver state: constructions go
through `NetCfgDevice_construct`, destructions through the `Destroy` method
of `callback_method_call`, invoked by the owner (uid 0). -/
def traceStep (res : ResolverState) (e : TraceEv) : ResolverState :=
  match e with
  | TraceEv.construct w => (NetCfgDevice_construct 0 "tun0" w res).2.1
  | TraceEv.destroyDev w env =>
      (netcfg_callback_method_call env 0 "Destroy" [] (traceDevice w res) res).resolver

/-- Run a whole event trace against a shared resolver. -/
def runTrace (res : ResolverState) (tr : List TraceEv) : ResolverState :=
  tr.foldl traceStep res

/-- Ledger: number of live devices constructed with the shared resolver,
after one event. -/
def liveStep (n : Nat) (e : TraceEv) : Nat :=
  match e with
  | TraceEv.construct true => n + 1
  | TraceEv.construct false => n
  | TraceEv.destroyDev true _ => n - 1
  | TraceEv.destroyDev false _ => n

/-- Ledger after a whole trace. -/
def liveAfter (n : Nat) (tr : List TraceEv) : Nat :=
  tr.foldl liveStep n

/-- A trace is well formed when no `Destroy` of a resolver-holding device
happens while no such device is live. -/
def wfFrom (n : Nat) : List TraceEv → Bool
  | [] => true
  | TraceEv.construct true :: rest => wfFrom (n + 1) rest
  | TraceEv.construct false :: rest => wfFrom n rest
  | TraceEv.destroyDev true _ :: rest => n ≠ 0 && wfFrom (n - 1) rest
  | TraceEv.destroyDev false _ :: rest => wfFrom n rest

lemma dispatch_addIPv4 (env : Env) (sender : Nat) (params : List String)
    (dev : DeviceState) (res : ResolverState) :
    netcfg_callback_method_call env sender "AddIPv4Address" params dev res =
      unchangedOk dev res := rfl

lemma dispatch_removeIPv4 (env : Env) (sender : Nat) (params : List String)
    (dev : DeviceState) (res : ResolverState) :
    netcfg_callback_method_call env sender "RemoveIPv4Address" params dev res =
      unchangedOk dev res := rfl

lemma dispatch_addIPv6 (env : Env) (sender : Nat) (params : List String)
    (dev : DeviceState) (res : ResolverState) :
    netcfg_callback_method_call env sender "AddIPv6Address" params dev res =
      unchangedOk dev res := rfl

lemma dispatch_removeIPv6 (env : Env) (sender : Nat) (params : List String)
    (dev : DeviceState) (res : ResolverState) :
    netcfg_callback_method_call env sender "RemoveIPv6Address" params dev res =
      unchangedOk dev res := rfl

lemma dispatch_addRoutes (env : Env) (sender : Nat) (params : List String)
    (dev : DeviceState) (res : ResolverState) :
    netcfg_callback_method_call env sender "AddRoutes" params dev res =
      unchangedOk dev res := rfl

lemma dispatch_removeRoutes (env : Env) (sender : Nat) (params : List String)
    (dev : DeviceState) (res : ResolverState) :
    netcfg_callback_method_call env sender "RemoveRoutes" params dev res =
      unchangedOk dev res := rfl

lemma dispatch_addDNS (env : Env) (sender : Nat) (params : List String)
    (dev : DeviceState) (res : ResolverState) :
    netcfg_callback_method_call env sender "AddDNS" params dev res =
      addDNSImpl params dev res := rfl

lemma dispatch_removeDNS (env : Env) (sender : Nat) (params : List String)
    (dev : DeviceState) (res : ResolverState) :
    netcfg_callback_method_call env sender "RemoveDNS" params dev res =
      removeDNSImpl params dev res := rfl

lemma dispatch_addDNSSearch (env : Env) (sender : Nat) (params : List String)
    (dev : DeviceState) (res : ResolverState) :
    netcfg_callback_method_call env sender "AddDNSSearch" params dev res =
      addDNSSearchImpl params dev res := rfl

lemma dispatch_removeDNSSearch (env : Env) (sender : Nat) (params : List String)
    (dev : DeviceState) (res : ResolverState) :
    netcfg_callback_method_call env sender "RemoveDNSSearch" params dev res =
      removeDNSSearchImpl params dev res := rfl

lemma dispatch_default (env : Env) (sender : Nat) (method : String) (params : List String)
    (dev : DeviceState) (res : ResolverState)
    (h1 : method ≠ "AddIPv4Address") (h2 : method ≠ "RemoveIPv4Address")
    (h3 : method ≠ "AddIPv6Address") (h4 : method ≠ "RemoveIPv6Address")
    (h5 : method ≠ "AddRoutes") (h6 : method ≠ "RemoveRoutes")
    (h7 : method ≠ "AddDNS") (h8 : method ≠ "RemoveDNS")
    (h9 : method ≠ "AddDNSSearch") (h10 : method ≠ "RemoveDNSSearch")
    (h11 : method ≠ "Establish") (h12 : method ≠ "Disable")
    (h13 : method ≠ "Destroy") :
    netcfg_callback_method_call env sender method params dev res = unchangedOk dev res := by
  unfold netcfg_callback_method_call
  rw [if_neg h1, if_neg h2, if_neg h3, if_neg h4, if_neg h5, if_neg h6, if_neg h7,
    if_neg h8, if_neg h9, if_neg h10, if_neg h11, if_neg h12, if_neg h13]

lemma dispatch_destroy (env : Env) (sender : Nat) (params : List String)
    (dev : DeviceState) (res : ResolverState) :
    netcfg_callback_method_call env sender "Destroy" params dev res =
      destroyImpl env sender dev res := rfl

lemma dispatch_disable (env : Env) (sender : Nat) (params : List String)
    (dev : DeviceState) (res : ResolverState) :
    netcfg_callback_method_call env sender "Disable" params dev res =
      disableImpl env dev res := rfl

lemma dispatch_establish (env : Env) (sender : Nat) (params : List String)
    (dev : DeviceState) (res : ResolverState) :
    netcfg_callback_method_call env sender "Establish" params dev res =
      establishImpl env dev res := rfl

lemma destroyImpl_owner_count (env : Env) (dev : DeviceState) (res : ResolverState)
    (hown : dev.owner = 0) (hres : dev.hasResolver = true) :
    (destroyImpl env 0 dev res).resolver.deviceCount = res.deviceCount - 1 := by
  simp only [destroyImpl, CheckOwnerAccess, hown, hres]
  by_cases h0 : res.deviceCount - 1 = 0 <;>
    by_cases hrf : env.restoreFails <;>
      simp [ResolverState.DecDeviceCount, ResolverState.GetDeviceCount, h0, hrf]

lemma destroyImpl_noresolver (env : Env) (sender : Nat) (dev : DeviceState)
    (res : ResolverState) (hres : dev.hasResolver = false) :
    (destroyImpl env sender dev res).resolver = res := by
  by_cases hown : CheckOwnerAccess sender dev.owner <;>
    simp [destroyImpl, hown, hres]

lemma traceStep_count (res : ResolverState) (e : TraceEv) :
    (traceStep res e).deviceCount =
      match e with
      | TraceEv.construct true => res.deviceCount + 1
      | TraceEv.construct false => res.deviceCount
      | TraceEv.destroyDev true _ => res.deviceCount - 1
      | TraceEv.destroyDev false _ => res.deviceCount := by
  cases e with
  | construct w =>
      cases w <;>
        simp [traceStep, NetCfgDevice_construct, ResolverState.IncDeviceCount]
  | destroyDev w env =>
      cases w with
      | true =>
          simp only [traceStep, dispatch_destroy]
          exact destroyImpl_owner_count env (traceDevice true res) res rfl rfl
      | false =>
          simp only [traceStep, dispatch_destroy]
          rw [destroyImpl_noresolver env 0 (traceDevice false res) res rfl]

lemma runTrace_count (tr : List TraceEv) :
    ∀ (res : ResolverState) (n : Nat), res.deviceCount = n → wfFrom n tr = true →
      (runTrace res tr).deviceCount = liveAfter n tr := by
  induction tr with
  | nil => intro res n hc _; simpa [runTrace, liveAfter] using hc
  | cons e rest ih =>
      intro res n hc hwf
      have hstep := traceStep_count res e
      cases e with
      | construct w =>
          cases w with
          | true =>
              have : (traceStep res (TraceEv.construct true)).deviceCount = n + 1 := by
                rw [hstep, hc]
              simpa [runTrace, liveAfter, List.foldl_cons, liveStep] using
                ih (traceStep res (TraceEv.construct true)) (n + 1) this
                  (by simpa [wfFrom] using hwf)
          | false =>
              have : (traceStep res (TraceEv.construct false)).deviceCount = n := by
                rw [hstep, hc]
              simpa [runTrace, liveAfter, List.foldl_cons, liveStep] using
                ih (traceStep res (TraceEv.construct false)) n this
                  (by simpa [wfFrom] using hwf)
      | destroyDev w env =>
          cases w with
          | true =>
              have hwf2 : n ≠ 0 ∧ wfFrom (n - 1) rest = true := by
                simpa [wfFrom, Bool.and_eq_true, decide_eq_true_iff] using hwf
              have : (traceStep res (TraceEv.destroyDev true env)).deviceCount = n - 1 := by
                rw [hstep, hc]
              simpa [runTrace, liveAfter, List.foldl_cons, liveStep] using
                ih (traceStep res (TraceEv.destroyDev true env)) (n - 1) this hwf2.2
          | false =>
              have : (traceStep res (TraceEv.destroyDev false env)).deviceCount = n := by
                rw [hstep, hc]
              simpa [runTrace, liveAfter, List.foldl_cons, liveStep] using
                ih (traceStep res (TraceEv.destroyDev false env)) n this
                  (by simpa [wfFrom] using hwf)

lemma addDNSImpl_count (params : List String) (dev : DeviceState) (res : ResolverState) :
    (addDNSImpl params dev res).resolver.deviceCount = res.deviceCount := by
  by_cases h : dev.hasResolver <;> simp [addDNSImpl, h, ResolverState.AddDNSServers]

lemma removeDNSImpl_count (params : List String) (dev : DeviceState) (res : ResolverState) :
    (removeDNSImpl params dev res).resolver.deviceCount = res.deviceCount := by
  by_cases h : dev.hasResolver <;> simp [removeDNSImpl, h, ResolverState.RemoveDNSServers]

lemma addDNSSearchImpl_count (params : List String) (dev : DeviceState) (res : ResolverState) :
    (addDNSSearchImpl params dev res).resolver.deviceCount = res.deviceCount := by
  by_cases h : dev.hasResolver <;> simp [addDNSSearchImpl, h, ResolverState.AddDNSSearch]

lemma removeDNSSearchImpl_count (params : List String) (dev : DeviceState) (res : ResolverState) :
    (removeDNSSearchImpl params dev res).resolver.deviceCount = res.deviceCount := by
  by_cases h : dev.hasResolver <;> simp [removeDNSSearchImpl, h, ResolverState.RemoveDNSSearch]

lemma establishRest_resolver (env : Env) (dev : DeviceState) (res : ResolverState)
    (evs : List CEvent) : (establishRest env dev res evs).resolver = res := by
  by_cases h : env.fdlistError <;> simp [establishRest, h]

lemma establishImpl_count (env : Env) (dev : DeviceState) (res : ResolverState) :
    (establishImpl env dev res).resolver.deviceCount = res.deviceCount := by
  by_cases hc : dev.hasResolver = true ∧ res.GetModified = true
  · by_cases ha : env.applyFails <;>
      simp [establishImpl, hc, ha, establishRest_resolver, ResolverState.ApplyOk]
  · simp [establishImpl, hc, establishRest_resolver]

lemma disableImpl_resolver (env : Env) (dev : DeviceState) (res : ResolverState) :
    (disableImpl env dev res).resolver = res := by
  by_cases hc : dev.hasResolver = true ∧ res.GetDeviceCount ≤ 1
  · by_cases hrf : env.restoreFails <;> simp [disableImpl, hc, hrf]
  · simp [disableImpl, hc]

lemma addDNSImpl_no_restore (params : List String) (dev : DeviceState) (res : ResolverState) :
    CEvent.restoreCall ∉ (addDNSImpl params dev res).events := by
  by_cases h : dev.hasResolver <;> simp [addDNSImpl, h]

lemma removeDNSImpl_no_restore (params : List String) (dev : DeviceState) (res : ResolverState) :
    CEvent.restoreCall ∉ (removeDNSImpl params dev res).events := by
  by_cases h : dev.hasResolver <;> simp [removeDNSImpl, h]

lemma addDNSSearchImpl_no_restore (params : List String) (dev : DeviceState)
    (res : ResolverState) :
    CEvent.restoreCall ∉ (addDNSSearchImpl params dev res).events := by
  by_cases h : dev.hasResolver <;> simp [addDNSSearchImpl, h]

lemma removeDNSSearchImpl_no_restore (params : List String) (dev : DeviceState)
    (res : ResolverState) :
    CEvent.restoreCall ∉ (removeDNSSearchImpl params dev res).events := by
  by_cases h : dev.hasResolver <;> simp [removeDNSSearchImpl, h]

lemma establishImpl_no_restore (env : Env) (dev : DeviceState) (res : ResolverState) :
    CEvent.restoreCall ∉ (establishImpl env dev res).events := by
  by_cases hc : dev.hasResolver = true ∧ res.GetModified = true <;>
    by_cases ha : env.applyFails <;>
      by_cases hf : env.fdlistError <;>
        simp [establishImpl, establishRest, hc, ha, hf]

lemma disableImpl_no_restore (env : Env) (dev : DeviceState) (res : ResolverState)
    (hres : dev.hasResolver = false) :
    CEvent.restoreCall ∉ (disableImpl env dev res).events := by
  have hc : ¬(dev.hasResolver = true ∧ res.GetDeviceCount ≤ 1) := by simp [hres]
  simp [disableImpl, hc]

lemma destroyImpl_no_restore (env : Env) (sender : Nat) (dev : DeviceState)
    (res : ResolverState) (hres : dev.hasResolver = false) :
    CEvent.restoreCall ∉ (destroyImpl env sender dev res).events := by
  by_cases hown : CheckOwnerAccess sender dev.owner <;> simp [destroyImpl, hown, hres]

/--
C1: for a device with a configured resolver, the `Disable` branch invokes
`Restore` on the shared resolver exactly when the device reference count is
at most 1, and leaves the resolver state (in particular the count)
untouched; the owner `Destroy` branch decrements the count first (it is the
first recorded side effect) and invokes `Restore` exactly when the resulting
count is zero; and a device constructed without a resolver never invokes
`Restore` on any method call.
-/
theorem C1_restore_protocol :
    (∀ (env : Env) (sender : Nat) (dev : DeviceState) (res : ResolverState),
        dev.hasResolver = true →
        (CEvent.restoreCall ∈
            (netcfg_callback_method_call env sender "Disable" [] dev res).events ↔
          res.GetDeviceCount ≤ 1) ∧
        (netcfg_callback_method_call env sender "Disable" [] dev res).resolver = res) ∧
    (∀ (env : Env) (dev : DeviceState) (res : ResolverState),
        dev.hasResolver = true →
        (netcfg_callback_method_call env dev.owner "Destroy" [] dev res).resolver.deviceCount
            = res.deviceCount - 1 ∧
        (CEvent.restoreCall ∈
            (netcfg_callback_method_call env dev.owner "Destroy" [] dev res).events ↔
          res.deviceCount - 1 = 0) ∧
        (netcfg_callback_method_call env dev.owner "Destroy" [] dev res).events.take 1
            = [CEvent.decDeviceCount]) ∧
    (∀ (env : Env) (sender : Nat) (method : String) (params : List String)
        (dev : DeviceState) (res : ResolverState),
        dev.hasResolver = false →
        CEvent.restoreCall ∉
          (netcfg_callback_method_call env sender method params dev res).events) := by
  refine ⟨?_, ?_, ?_⟩
  · intro env sender dev res hres
    rw [dispatch_disable]
    by_cases hc : res.GetDeviceCount ≤ 1 <;> by_cases hrf : env.restoreFails <;>
      simp [disableImpl, hres, hc, hrf]
  · intro env dev res hres
    rw [dispatch_destroy]
    simp only [destroyImpl, CheckOwnerAccess, decide_eq_true_eq, if_pos rfl, hres, if_true]
    by_cases h0 : res.deviceCount - 1 = 0 <;> by_cases hrf : env.restoreFails <;>
      simp [ResolverState.DecDeviceCount, ResolverState.GetDeviceCount, h0, hrf]
  · intro env sender method params dev res hres
    by_cases h1 : method = "AddIPv4Address"
    · rw [h1, dispatch_addIPv4]; simp [unchangedOk]
    by_cases h2 : method = "RemoveIPv4Address"
    · rw [h2, dispatch_removeIPv4]; simp [unchangedOk]
    by_cases h3 : method = "AddIPv6Address"
    · rw [h3, dispatch_addIPv6]; simp [unchangedOk]
    by_cases h4 : method = "RemoveIPv6Address"
    · rw [h4, dispatch_removeIPv6]; simp [unchangedOk]
    by_cases h5 : method = "AddRoutes"
    · rw [h5, dispatch_addRoutes]; simp [unchangedOk]
    by_cases h6 : method = "RemoveRoutes"
    · rw [h6, dispatch_removeRoutes]; simp [unchangedOk]
    by_cases h7 : method = "AddDNS"
    · rw [h7, dispatch_addDNS]; exact addDNSImpl_no_restore params dev res
    by_cases h8 : method = "RemoveDNS"
    · rw [h8, dispatch_removeDNS]; exact removeDNSImpl_no_restore params dev res
    by_cases h9 : method = "AddDNSSearch"
    · rw [h9, dispatch_addDNSSearch]; exact addDNSSearchImpl_no_restore params dev res
    by_cases h10 : method = "RemoveDNSSearch"
    · rw [h10, dispatch_removeDNSSearch]; exact removeDNSSearchImpl_no_restore params dev res
    by_cases h11 : method = "Establish"
    · rw [h11, dispatch_establish]; exact establishImpl_no_restore env dev res
    by_cases h12 : method = "Disable"
    · rw [h12, dispatch_disable]; exact disableImpl_no_restore env dev res hres
    by_cases h13 : method = "Destroy"
    · rw [h13, dispatch_destroy]; exact destroyImpl_no_restore env sender dev res hres
    rw [dispatch_default env sender method params dev res h1 h2 h3 h4 h5 h6 h7 h8 h9 h10
      h11 h12 h13]
    simp [unchangedOk]

/-- Witness for C1: a device with a resolver whose count is 1, disabled by
sender 7, does invoke Restore. -/
theorem C1_restore_protocol_witness :
    (⟨"tun0", [], [], 1500, false, 1000, true⟩ : DeviceState).hasResolver = true ∧
    (CEvent.restoreCall ∈
        (netcfg_callback_method_call ⟨false, false, false⟩ 7 "Disable" []
          ⟨"tun0", [], [], 1500, false, 1000, true⟩ ⟨1, false, [], []⟩).events ↔
      (⟨1, false, [], []⟩ : ResolverState).GetDeviceCount ≤ 1) := by
  refine ⟨rfl, ?_⟩
  exact (C1_restore_protocol.1 ⟨false, false, false⟩ 7
    ⟨"tun0", [], [], 1500, false, 1000, true⟩ ⟨1, false, [], []⟩ rfl).1

/--
C2: over any well-formed sequence of device constructions and completed
owner `Destroy` calls against a shared resolver starting at count 0, the
resolver's device reference count always equals the number of live devices
that were constructed with the resolver and not yet destroyed; and no
method call other than `Destroy` ever changes the count.
-/
theorem C2_refcount_invariant :
    (∀ (tr : List TraceEv) (res : ResolverState),
        res.deviceCount = 0 → wfFrom 0 tr = true →
        (runTrace res tr).deviceCount = liveAfter 0 tr) ∧
    (∀ (env : Env) (sender : Nat) (method : String) (params : List String)
        (dev : DeviceState) (res : ResolverState),
        method ≠ "Destroy" →
        (netcfg_callback_method_call env sender method params dev res).resolver.deviceCount
          = res.deviceCount) := by
  constructor
  · intro tr res h0 hwf
    exact runTrace_count tr res 0 h0 hwf
  · intro env sender method params dev res hne
    by_cases h1 : method = "AddIPv4Address"
    · rw [h1, dispatch_addIPv4]; rfl
    by_cases h2 : method = "RemoveIPv4Address"
    · rw [h2, dispatch_removeIPv4]; rfl
    by_cases h3 : method = "AddIPv6Address"
    · rw [h3, dispatch_addIPv6]; rfl
    by_cases h4 : method = "RemoveIPv6Address"
    · rw [h4, dispatch_removeIPv6]; rfl
    by_cases h5 : method = "AddRoutes"
    · rw [h5, dispatch_addRoutes]; rfl
    by_cases h6 : method = "RemoveRoutes"
    · rw [h6, dispatch_removeRoutes]; rfl
    by_cases h7 : method = "AddDNS"
    · rw [h7, dispatch_addDNS]; exact addDNSImpl_count params dev res
    by_cases h8 : method = "RemoveDNS"
    · rw [h8, dispatch_removeDNS]; exact removeDNSImpl_count params dev res
    by_cases h9 : method = "AddDNSSearch"
    · rw [h9, dispatch_addDNSSearch]; exact addDNSSearchImpl_count params dev res
    by_cases h10 : method = "RemoveDNSSearch"
    · rw [h10, dispatch_removeDNSSearch]; exact removeDNSSearchImpl_count params dev res
    by_cases h11 : method = "Establish"
    · rw [h11, dispatch_establish]; exact establishImpl_count env dev res
    by_cases h12 : method = "Disable"
    · rw [h12, dispatch_disable, disableImpl_resolver]
    by_cases h13 : method = "Destroy"
    · exact absurd h13 hne
    rw [dispatch_default env sender method params dev res h1 h2 h3 h4 h5 h6 h7 h8 h9 h10
      h11 h12 h13]
    rfl

/-- Witness for C2: two devices constructed with the resolver followed by one
completed `Destroy` leave the count at 1, matching the ledger. -/
theorem C2_refcount_invariant_witness :
    (⟨0, false, [], []⟩ : ResolverState).deviceCount = 0 ∧
    wfFrom 0 [TraceEv.construct true, TraceEv.construct true,
      TraceEv.destroyDev true ⟨false, false, false⟩] = true ∧
    (runTrace ⟨0, false, [], []⟩ [TraceEv.construct true, TraceEv.construct true,
        TraceEv.destroyDev true ⟨false, false, false⟩]).deviceCount =
      liveAfter 0 [TraceEv.construct true, TraceEv.construct true,
        TraceEv.destroyDev true ⟨false, false, false⟩] := by
  refine ⟨rfl, rfl, ?_⟩
  exact C2_refcount_invariant.1
    [TraceEv.construct true, TraceEv.construct true,
      TraceEv.destroyDev true ⟨false, false, false⟩] ⟨0, false, [], []⟩ rfl rfl

/--
C3: a `Destroy` call by any identity other than the recorded owner replies
with the permission-denied D-Bus error and leaves everything untouched: the
device state is unchanged, the resolver (in particular its reference count)
is unchanged, `Restore` is not invoked, the object is neither unregistered
nor deleted; and a subsequent `Destroy` by the true owner completes,
unregistering, acknowledging and deleting the object.
-/
theorem C3_destroy_owner_only (env env2 : Env) (sender : Nat) (dev : DeviceState)
    (res : ResolverState) (hne : sender ≠ dev.owner) :
    ((netcfg_callback_method_call env sender "Destroy" [] dev res).device = some dev ∧
     (netcfg_callback_method_call env sender "Destroy" [] dev res).resolver = res ∧
     (netcfg_callback_method_call env sender "Destroy" [] dev res).replies =
       [Reply.dbusErr "net.openvpn.v3.error.acl.denied" "Destroy not allowed"] ∧
     CEvent.restoreCall ∉
       (netcfg_callback_method_call env sender "Destroy" [] dev res).events ∧
     CEvent.removeObject ∉
       (netcfg_callback_method_call env sender "Destroy" [] dev res).events ∧
     CEvent.deleteSelf ∉
       (netcfg_callback_method_call env sender "Destroy" [] dev res).events) ∧
    ((netcfg_callback_method_call env2 dev.owner "Destroy" [] dev res).device = none ∧
     CEvent.removeObject ∈
       (netcfg_callback_method_call env2 dev.owner "Destroy" [] dev res).events ∧
     CEvent.deleteSelf ∈
       (netcfg_callback_method_call env2 dev.owner "Destroy" [] dev res).events ∧
     (netcfg_callback_method_call env2 dev.owner "Destroy" [] dev res).replies =
       [Reply.value]) := by
  constructor
  · rw [dispatch_destroy]
    have hown : ¬ CheckOwnerAccess sender dev.owner = true := by
      simp [CheckOwnerAccess, hne]
    simp [destroyImpl, hown]
  · rw [dispatch_destroy]
    have hown : CheckOwnerAccess dev.owner dev.owner = true := by
      simp [CheckOwnerAccess]
    by_cases hres : dev.hasResolver <;>
      by_cases h0 : res.deviceCount - 1 = 0 <;>
        by_cases hrf : env2.restoreFails <;>
          simp [destroyImpl, hown, hres, h0, hrf, ResolverState.DecDeviceCount,
            ResolverState.GetDeviceCount]

/-- Witness for C3: sender 7 cannot destroy a device owned by uid 1000. -/
theorem C3_destroy_owner_only_witness :
    (7 : Nat) ≠ (⟨"tun0", [], [], 1500, false, 1000, true⟩ : DeviceState).owner ∧
    (netcfg_callback_method_call ⟨false, false, false⟩ 7 "Destroy" []
        ⟨"tun0", [], [], 1500, false, 1000, true⟩ ⟨1, false, [], []⟩).resolver =
      (⟨1, false, [], []⟩ : ResolverState) := by
  refine ⟨by decide, ?_⟩
  exact ((C3_destroy_owner_only ⟨false, false, false⟩ ⟨false, false, false⟩ 7
    ⟨"tun0", [], [], 1500, false, 1000, true⟩ ⟨1, false, [], []⟩ (by decide)).1).2.1

/--
C4: on an `Establish` call for a device with a resolver reporting modified
state, `Apply` runs and it is the first side effect (in particular it
precedes any descriptor handoff); when `Apply` fails, the sole reply is the
generic error for the `Establish` call, no descriptor is handed off and no
fd-list success reply is issued, and both the device and the resolver are
left exactly as they were, so the call can be retried; when `Apply` and the
fd-list construction succeed, the handoff follows the `Apply` event.
-/
theorem C4_establish_apply_first (env : Env) (sender : Nat) (dev : DeviceState)
    (res : ResolverState) (hres : dev.hasResolver = true) (hmod : res.GetModified = true) :
    ((netcfg_callback_method_call env sender "Establish" [] dev res).events.take 1 =
      [CEvent.applyCall]) ∧
    (env.applyFails = true →
      (netcfg_callback_method_call env sender "Establish" [] dev res).replies =
        [genericErr "Establish" "Resolver Apply failed"] ∧
      (netcfg_callback_method_call env sender "Establish" [] dev res).device = some dev ∧
      (netcfg_callback_method_call env sender "Establish" [] dev res).resolver = res ∧
      (∀ fd : Int, CEvent.handoffFd fd ∉
        (netcfg_callback_method_call env sender "Establish" [] dev res).events) ∧
      (∀ fd : Int, Reply.valueWithFdList fd ∉
        (netcfg_callback_method_call env sender "Establish" [] dev res).replies)) ∧
    (env.applyFails = false → env.fdlistError = false →
      CEvent.handoffFd (-1) ∈
        (netcfg_callback_method_call env sender "Establish" [] dev res).events) := by
  rw [dispatch_establish]
  have hc : dev.hasResolver = true ∧ res.GetModified = true := ⟨hres, hmod⟩
  by_cases ha : env.applyFails <;>
    by_cases hf : env.fdlistError <;>
      simp [establishImpl, establishRest, hc, ha, hf, genericErr]

/-- Witness for C4: a modified resolver with a failing `Apply` leaves the
resolver untouched on `Establish`. -/
theorem C4_establish_apply_first_witness :
    (⟨"tun0", [], [], 1500, false, 1000, true⟩ : DeviceState).hasResolver = true ∧
    (⟨1, true, ["10.0.0.53"], []⟩ : ResolverState).GetModified = true ∧
    (⟨true, false, false⟩ : Env).applyFails = true ∧
    (netcfg_callback_method_call ⟨true, false, false⟩ 9 "Establish" []
        ⟨"tun0", [], [], 1500, false, 1000, true⟩ ⟨1, true, ["10.0.0.53"], []⟩).resolver =
      (⟨1, true, ["10.0.0.53"], []⟩ : ResolverState) := by
  refine ⟨rfl, rfl, rfl, ?_⟩
  exact (((C4_establish_apply_first ⟨true, false, false⟩ 9
    ⟨"tun0", [], [], 1500, false, 1000, true⟩ ⟨1, true, ["10.0.0.53"], []⟩
    rfl rfl).2.1) rfl).2.2.1

/--
C7: a failing `Restore` never escalates to the caller: a `Disable` call
under a failing `Restore` still replies with the plain empty success (no
error reply), logging the failure whenever `Restore` ran; and an owner
`Destroy` whose `Restore` step runs and fails still logs the failure,
unregisters the object, acknowledges the call with the empty success reply,
and releases the in-memory object.
-/
theorem C7_restore_failures_nonfatal (env : Env) (sender : Nat) (dev : DeviceState)
    (res : ResolverState) (hrf : env.restoreFails = true) :
    ((netcfg_callback_method_call env sender "Disable" [] dev res).replies =
      [Reply.value]) ∧
    (CEvent.restoreCall ∈
        (netcfg_callback_method_call env sender "Disable" [] dev res).events →
      CEvent.logCritical "Restore failed" ∈
        (netcfg_callback_method_call env sender "Disable" [] dev res).events) ∧
    (dev.hasResolver = true → res.deviceCount = 1 →
      CEvent.restoreCall ∈
        (netcfg_callback_method_call env dev.owner "Destroy" [] dev res).events ∧
      CEvent.logCritical "Restore failed" ∈
        (netcfg_callback_method_call env dev.owner "Destroy" [] dev res).events ∧
      CEvent.removeObject ∈
        (netcfg_callback_method_call env dev.owner "Destroy" [] dev res).events ∧
      CEvent.deleteSelf ∈
        (netcfg_callback_method_call env dev.owner "Destroy" [] dev res).events ∧
      (netcfg_callback_method_call env dev.owner "Destroy" [] dev res).replies =
        [Reply.value] ∧
      (netcfg_callback_method_call env dev.owner "Destroy" [] dev res).device = none) := by
  refine ⟨?_, ?_, ?_⟩
  · rw [dispatch_disable]
    by_cases hc : dev.hasResolver = true ∧ res.GetDeviceCount ≤ 1 <;>
      simp [disableImpl, hc, hrf]
  · rw [dispatch_disable]
    by_cases hc : dev.hasResolver = true ∧ res.GetDeviceCount ≤ 1 <;>
      simp [disableImpl, hc, hrf]
  · intro hres h1
    rw [dispatch_destroy]
    have hown : CheckOwnerAccess dev.owner dev.owner = true := by
      simp [CheckOwnerAccess]
    have h0 : res.deviceCount - 1 = 0 := by rw [h1]
    simp [destroyImpl, hown, hres, hrf, h0, ResolverState.DecDeviceCount,
      ResolverState.GetDeviceCount]

/-- Witness for C7: a failing `Restore` during an owner `Destroy` of the
last device still unregisters and deletes the object. -/
theorem C7_restore_failures_nonfatal_witness :
    (⟨false, true, false⟩ : Env).restoreFails = true ∧
    (⟨"tun0", [], [], 1500, false, 1000, true⟩ : DeviceState).hasResolver = true ∧
    (⟨1, false, [], []⟩ : ResolverState).deviceCount = 1 ∧
    (netcfg_callback_method_call ⟨false, true, false⟩ 1000 "Destroy" []
        ⟨"tun0", [], [], 1500, false, 1000, true⟩ ⟨1, false, [], []⟩).device = none := by
  refine ⟨rfl, rfl, rfl, ?_⟩
  exact ((C7_restore_failures_nonfatal ⟨false, true, false⟩ 1000
    ⟨"tun0", [], [], 1500, false, 1000, true⟩ ⟨1, false, [], []⟩ rfl).2.2
    rfl rfl).2.2.2.2.2

/-- The method names the `callback_method_call` chains dispatch on. -/
def dispatchedMethods : List String :=
  ["AddIPv4Address", "RemoveIPv4Address", "AddIPv6Address", "RemoveIPv6Address",
   "AddRoutes", "RemoveRoutes", "AddDNS", "RemoveDNS", "AddDNSSearch",
   "RemoveDNSSearch", "Establish", "Disable", "Destroy"]

/--
C10: a method call whose name matches none of the dispatched names
(misspelled or case-mismatched names included) falls through every chain of
`callback_method_call` and hits the final
`g_dbus_method_invocation_return_value(invoc, retval)` with `retval` still
null: the call succeeds with an empty reply, with no device or resolver
change and no side effect.
-/
theorem C10_unknown_method_silent_success (env : Env) (sender : Nat) (method : String)
    (params : List String) (dev : DeviceState) (res : ResolverState)
    (hmem : ¬ method ∈ dispatchedMethods) :
    netcfg_callback_method_call env sender method params dev res =
      { device := some dev, resolver := res, events := [], replies := [Reply.value] } := by
  simp only [dispatchedMethods, List.mem_cons, List.not_mem_nil, or_false] at hmem
  push_neg at hmem
  obtain ⟨h1, h2, h3, h4, h5, h6, h7, h8, h9, h10, h11, h12, h13⟩ := hmem
  rw [dispatch_default env sender method params dev res h1 h2 h3 h4 h5 h6 h7 h8 h9 h10
    h11 h12 h13]
  rfl

/-- Witness for C10: the case-mismatched name `establish` is not dispatched
and returns the empty success with no state change. -/
theorem C10_unknown_method_silent_success_witness :
    ¬ "establish" ∈ dispatchedMethods ∧
    netcfg_callback_method_call ⟨false, false, false⟩ 0 "establish" []
        ⟨"tun0", [], [], 1500, false, 1000, true⟩ ⟨1, false, [], []⟩ =
      { device := some ⟨"tun0", [], [], 1500, false, 1000, true⟩,
        resolver := ⟨1, false, [], []⟩, events := [], replies := [Reply.value] } := by
  refine ⟨by decide, ?_⟩
  exact C10_unknown_method_silent_success ⟨false, false, false⟩ 0 "establish" []
    ⟨"tun0", [], [], 1500, false, 1000, true⟩ ⟨1, false, [], []⟩ (by decide)

/--
C5: evaluation showing the claim fails on the code.  On a successful
`Establish`, the descriptor appended to the fd list and handed off is the
constant placeholder `-1` (netcfg-device.hpp line 273, with the source
comment that the real tun-device fd is still a TODO), not a handle obtained
from any device-creation collaborator; and when the fd-list construction
reports an error, the call ends with the generic error reply without any
interface teardown having been invoked (the event trace holds only the
append and the close of the placeholder).
-/
theorem C5_establish_placeholder_fd :
    (netcfg_callback_method_call ⟨false, false, false⟩ 1000 "Establish" []
        ⟨"tun0", [], [], 1500, false, 1000, false⟩ ⟨0, false, [], []⟩ =
      { device := some ⟨"tun0", [], [], 1500, false, 1000, false⟩,
        resolver := ⟨0, false, [], []⟩,
        events := [CEvent.appendFd (-1), CEvent.closeFd (-1), CEvent.handoffFd (-1)],
        replies := [Reply.valueWithFdList (-1), Reply.value] }) ∧
    (netcfg_callback_method_call ⟨false, false, true⟩ 1000 "Establish" []
        ⟨"tun0", [], [], 1500, false, 1000, false⟩ ⟨0, false, [], []⟩ =
      { device := some ⟨"tun0", [], [], 1500, false, 1000, false⟩,
        resolver := ⟨0, false, [], []⟩,
        events := [CEvent.appendFd (-1), CEvent.closeFd (-1)],
        replies := [genericErr "Establish" "Creating fd list failed"] }) := by
  exact ⟨rfl, rfl⟩

/--
C6: evaluation showing the claim fails on the code.  The source declares
`bool active = false` (line 561) and never assigns it anywhere, so the
`active` property reads `false` even after a fully successful `Establish`
call: the device state coming out of the `Establish` call is the unchanged
input device, and reading `active` on it yields `false` although the call
replied with the descriptor handoff.
-/
theorem C6_active_never_true :
    ((NetCfgDevice_construct 1000 "tun0" false ⟨0, false, [], []⟩).1 =
      (⟨"tun0", [], [], 1500, false, 1000, false⟩ : DeviceState)) ∧
    ((netcfg_callback_method_call ⟨false, false, false⟩ 1000 "Establish" []
        ⟨"tun0", [], [], 1500, false, 1000, false⟩ ⟨0, false, [], []⟩).replies =
      [Reply.valueWithFdList (-1), Reply.value]) ∧
    ((netcfg_callback_method_call ⟨false, false, false⟩ 1000 "Establish" []
        ⟨"tun0", [], [], 1500, false, 1000, false⟩ ⟨0, false, [], []⟩).device =
      some ⟨"tun0", [], [], 1500, false, 1000, false⟩) ∧
    (netcfg_callback_get_property ⟨"tun0", [], [], 1500, false, 1000, false⟩
        ⟨0, false, [], []⟩ 3 "active" = Except.ok (PropValue.b false)) := by
  exact ⟨rfl, rfl, rfl, rfl⟩

/--
C8: evaluation showing the claim fails on the code.  The
`RemoveIPv4Address`, `RemoveIPv6Address` and `RemoveRoutes` branches of
`callback_method_call` have comment-only bodies (lines 193-220): removing
records from a device that holds none returns the plain empty success reply
(`retval` still null at line 343) with no side effect — the calls silently
succeed instead of reporting `NotFound`.
-/
theorem C8_remove_absent_silent :
    (netcfg_callback_method_call ⟨false, false, false⟩ 0 "RemoveIPv4Address" []
        ⟨"tun0", [], [], 1500, false, 0, false⟩ ⟨0, false, [], []⟩ =
      { device := some ⟨"tun0", [], [], 1500, false, 0, false⟩,
        resolver := ⟨0, false, [], []⟩, events := [], replies := [Reply.value] }) ∧
    (netcfg_callback_method_call ⟨false, false, false⟩ 0 "RemoveIPv6Address" []
        ⟨"tun0", [], [], 1500, false, 0, false⟩ ⟨0, false, [], []⟩ =
      { device := some ⟨"tun0", [], [], 1500, false, 0, false⟩,
        resolver := ⟨0, false, [], []⟩, events := [], replies := [Reply.value] }) ∧
    (netcfg_callback_method_call ⟨false, false, false⟩ 0 "RemoveRoutes" []
        ⟨"tun0", [], [], 1500, false, 0, false⟩ ⟨0, false, [], []⟩ =
      { device := some ⟨"tun0", [], [], 1500, false, 0, false⟩,
        resolver := ⟨0, false, [], []⟩, events := [], replies := [Reply.value] }) := by
  exact ⟨rfl, rfl, rfl⟩

/--
C9: evaluation showing the read-through part of the claim fails on the code
for `dns_search`.  With a resolver configured, `AddDNSSearch` does delegate
to the Resolver Handle (the domain lands in the resolver), but reading the
`dns_search` property is served by the property binding of the local,
never-populated member (`callback_get_property` has no explicit resolver
branch for `dns_search`, unlike `dns_servers`, lines 446-455), so it
returns the empty list even while the resolver holds a search domain.
-/
theorem C9_dns_search_no_readthrough :
    ((netcfg_callback_method_call ⟨false, false, false⟩ 0 "AddDNSSearch" ["example.org"]
        ⟨"tun0", [], [], 1500, false, 0, true⟩ ⟨1, false, [], []⟩).resolver.searchDomains =
      ["example.org"]) ∧
    (netcfg_callback_get_property ⟨"tun0", [], [], 1500, false, 0, true⟩
        ⟨1, true, [], ["example.org"]⟩ 3 "dns_search" = Except.ok (PropValue.ss [])) := by
  exact ⟨rfl, rfl⟩
